import Mathlib

/-!
Shallow embedding of `src/ec2-autostartstop/lambda_function.py` and
verification of the specification's claims about it.

The Python module reads the ambient wall clock via `datetime.now(JST)` and
talks to two external collaborators: the holiday-data HTTP endpoint and the
boto3 EC2 client.  Those ambient inputs are modelled as explicit parameters:
the current JST datetime as a `JstDateTime` value (optionally derived from a
Unix timestamp by `datetimeNowJST`), the outcome of the holiday HTTP fetch as
a `FetchResult`, and the EC2 client as an `Ec2Client` record of fallible
operations.  Exceptions are modelled with `Except String`; `try/except`
blocks in the Python become `match` on the `Except` value at the site of the
Python handler.  Observable side effects (start/stop API calls and the
log-only no-op branch) are reified as a trace of `Event`s.
-/

set_option autoImplicit false

namespace Ec2AutoStartStop

/-- Decimal digits of `n`, zero-padded on the left to width 2
(the `%m`/`%d` fields of `strftime`). -/
def pad2 (n : Nat) : String :=
  if n < 10 then "0" ++ toString n else toString n

/-- Decimal digits of `n`, zero-padded on the left to width 4
(the `%Y` field of `strftime`). -/
def pad4 (n : Nat) : String :=
  if n < 10 then "000" ++ toString n
  else if n < 100 then "00" ++ toString n
  else if n < 1000 then "0" ++ toString n
  else toString n

/-- Gregorian `(year, month, day)` for a count of days since 1970-01-01
(civil-from-days; the calendar arithmetic underlying Python's `datetime`). -/
def civilFromDays (z : Nat) : Nat × Nat × Nat :=
  let z := z + 719468
  let era := z / 146097
  let doe := z % 146097
  let yoe := (doe - doe / 1460 + doe / 36524 - doe / 146096) / 365
  let y := yoe + era * 400
  let doy := doe - (365 * yoe + yoe / 4 - yoe / 100)
  let mp := (5 * doy + 2) / 153
  let d := doy - (153 * mp + 2) / 5 + 1
  let m := if mp < 10 then mp + 3 else mp - 9
  if m ≤ 2 then (y + 1, m, d) else (y, m, d)

/-- The fields of `datetime.now(JST)` that the Python module reads:
`.hour`, `.weekday()` (Monday = 0 .. Sunday = 6), `.strftime('%Y-%m-%d')`
and `.year`. -/
structure JstDateTime where
  hour : Nat
  weekday : Nat
  dateStr : String
  year : Nat
  deriving DecidableEq, Repr

/-- Model of `datetime.now(JST)` for a Unix timestamp `t` (seconds since the
epoch): JST is the fixed offset UTC+9, the epoch day 1970-01-01 was a
Thursday (`weekday()` = 3). -/
def datetimeNowJST (t : Nat) : JstDateTime :=
  let s := t + 9 * 3600
  let days := s / 86400
  let ymd := civilFromDays days
  { hour := s / 3600 % 24
    weekday := (days + 3) % 7
    dateStr := pad4 ymd.1 ++ "-" ++ pad2 ymd.2.1 ++ "-" ++ pad2 ymd.2.2
    year := ymd.1 }

/-- Embeds `determine_action` (lambda_function.py lines 42-47):
`return 'start' if 8 <= hour < 18 else 'stop'` on the current JST hour. -/
def determine_action (now : JstDateTime) : String :=
  if 8 ≤ now.hour ∧ now.hour < 18 then "start" else "stop"

/-- Outcome of the HTTP GET + JSON parse inside `get_japan_holidays`:
either the decoded JSON object (a mapping ISO-date-string to holiday-name,
kept in document order) or a raised exception message. -/
inductive FetchResult where
  | ok (data : List (String × String))
  | err (msg : String)
  deriving DecidableEq, Repr

/-- Embeds `get_japan_holidays` (lines 66-81): on success returns
`list(holidays_data.keys())`, on any exception from the fetch/parse the
`except` branch logs and returns `[]`. -/
def get_japan_holidays (fetch : FetchResult) : List String :=
  match fetch with
  | FetchResult.ok data => data.map Prod.fst
  | FetchResult.err _ => []

/-- Embeds `is_japan_holiday` (lines 48-64).  `holidays` is the LIST returned
by `get_japan_holidays`; when today's date string is a member, the log line
`holidays[today.strftime('%Y-%m-%d')]` indexes that list with a string, which
in Python raises `TypeError` — modelled as `Except.error`.  Otherwise the
weekend check `today.weekday() >= 5` decides the result. -/
def is_japan_holiday (now : JstDateTime) (fetch : FetchResult) : Except String Bool :=
  if (get_japan_holidays fetch).contains now.dateStr then
    Except.error "TypeError: list indices must be integers or slices, not str"
  else if now.weekday ≥ 5 then
    Except.ok true
  else
    Except.ok false

/-- Embeds `should_start` (lines 120-128). -/
def should_start (tag_value : String) (default_action : String) : Bool :=
  if default_action = "start" then
    ["true", "start", "auto"].contains tag_value
  else
    false

/-- Embeds `should_stop` (lines 130-138). -/
def should_stop (tag_value : String) (default_action : String) : Bool :=
  if default_action = "stop" then
    ["true", "stop", "auto"].contains tag_value
  else
    false

/-- The per-instance resolved action of the spec. -/
inductive ResolvedAction where
  | start
  | stop
  | noop
  deriving DecidableEq, Repr

/-- The per-instance dispatch of `manage_ec2_instances` (lines 92-97):
`should_start` selects start, else `should_stop` selects stop, else no-op. -/
def resolveInstanceAction (tag_value : String) (default_action : String) : ResolvedAction :=
  if should_start tag_value default_action then ResolvedAction.start
  else if should_stop tag_value default_action then ResolvedAction.stop
  else ResolvedAction.noop

/-- Embeds the rest-day override in `lambda_handler` (lines 29-31):
`if is_japan_holiday(): default_action = "stop"`. -/
def applyRestDayOverride (default_action : String) (isRest : Bool) : String :=
  if isRest then "stop" else default_action

/-- One EC2 instance of a `describe_instances` response: `i['InstanceId']`
and `i.get('Tags', [])` (a list of Key/Value pairs). -/
structure Ec2Instance where
  instanceId : String
  tags : List (String × String)
  deriving DecidableEq, Repr

/-- One element of `response['Reservations']`, holding `r['Instances']`. -/
structure Reservation where
  instances : List Ec2Instance
  deriving DecidableEq, Repr

/-- The boto3 EC2 client as seen by the module: `describe_instances` (already
filtered server-side to tag-key + state stopped/running), `start_instances`
and `stop_instances` on a list of instance ids.  Each call may raise, which
`Except.error` models. -/
structure Ec2Client where
  describe_instances : Except String (List Reservation)
  start_instances : List String → Except String String
  stop_instances : List String → Except String String

/-- Lookup in the dict built by `{t['Key']: t['Value'] for t in ...}`:
for duplicate keys the last binding wins, and a missing key gives `None`
(`tags.get(tag_key)`). -/
def dictGet (tags : List (String × String)) (key : String) : Option String :=
  (tags.reverse.find? (fun p => p.1 == key)).map Prod.snd

/-- The loop body of `get_ec2_instances_with_tag` (lines 109-113) for one
instance `i`: the entry `(i['InstanceId'], tag_value, tags)` is produced
whenever `tag_value = tags.get(tag_key)` is truthy — present AND non-empty,
Python string truthiness — and nothing is produced otherwise. -/
def instance_entry (tag_key : String) (i : Ec2Instance) :
    Option (String × String × List (String × String)) :=
  match dictGet i.tags tag_key with
  | some tag_value =>
      if tag_value ≠ "" then some (i.instanceId, tag_value, i.tags) else none
  | none => none

/-- Embeds `get_ec2_instances_with_tag` (lines 99-118): the nested loops over
reservations and instances append the `instance_entry` of each instance when
there is one; a `describe_instances` exception is caught and yields `[]`. -/
def get_ec2_instances_with_tag (client : Ec2Client) (tag_key : String) :
    List (String × String × List (String × String)) :=
  match client.describe_instances with
  | Except.error _ => []
  | Except.ok reservations =>
      reservations.flatMap (fun r => r.instances.filterMap (instance_entry tag_key))

/-- Observable outcome of handling one instance: the start/stop API call and
its success or caught failure, or the log-only no-op branch. -/
inductive Event where
  | started (ids : List String) (resp : String)
  | startFailed (ids : List String) (err : String)
  | stopped (ids : List String) (resp : String)
  | stopFailed (ids : List String) (err : String)
  | noAction (id : String)
  deriving DecidableEq, Repr

/-- Embeds `start_instances` (lines 140-146): the call is wrapped in
`try/except`, so the function always returns normally, recording success or
the caught exception. -/
def start_instances (client : Ec2Client) (ids : List String) : Event :=
  match client.start_instances ids with
  | Except.ok resp => Event.started ids resp
  | Except.error e => Event.startFailed ids e

/-- Embeds `stop_instances` (lines 148-154), same catch-all structure. -/
def stop_instances (client : Ec2Client) (ids : List String) : Event :=
  match client.stop_instances ids with
  | Except.ok resp => Event.stopped ids resp
  | Except.error e => Event.stopFailed ids e

/-- The loop body of `manage_ec2_instances` (lines 90-97) for one
`(instance_id, tag_value, all_tags)` triple. -/
def process_instance (client : Ec2Client) (default_action : String)
    (info : String × String × List (String × String)) : Event :=
  if should_start info.2.1 default_action then start_instances client [info.1]
  else if should_stop info.2.1 default_action then stop_instances client [info.1]
  else Event.noAction info.1

/-- Embeds `manage_ec2_instances` (lines 83-97): list the tagged instances,
return early when none, otherwise handle each in order.  The result is the
trace of per-instance events. -/
def manage_ec2_instances (default_action : String) (client : Ec2Client) : List Event :=
  if (get_ec2_instances_with_tag client "autostartstop").isEmpty then []
  else
    (get_ec2_instances_with_tag client "autostartstop").map
      (process_instance client default_action)

/-- The body of the `try` block of `lambda_handler` (lines 24-38) in the
exception monad: `determine_action`, the rest-day override (where
`is_japan_holiday` may raise), `event.get('target', 'all')` and the
dispatch on `target in ['ec2', 'all']`. -/
def lambda_handler_body (event_target : Option String) (now : JstDateTime)
    (fetch : FetchResult) (client : Ec2Client) : Except String (List Event) := do
  let default_action := determine_action now
  let isRest ← is_japan_holiday now fetch
  let default_action := applyRestDayOverride default_action isRest
  let target := event_target.getD "all"
  if ["ec2", "all"].contains target then
    return manage_ec2_instances default_action client
  else
    return []

/-- What the invocation boundary reports: a normal completion with the event
trace, or an exception that was caught by the top-level `except`, logged via
`logger.error`, and not re-raised. -/
inductive HandlerOutcome where
  | success (trace : List Event)
  | failureLogged (err : String)
  deriving DecidableEq, Repr

/-- Embeds `lambda_handler` (lines 23-40): the whole body runs inside
`try/except Exception`, so every exception is caught at the boundary. -/
def lambda_handler (event_target : Option String) (now : JstDateTime)
    (fetch : FetchResult) (client : Ec2Client) : HandlerOutcome :=
  match lambda_handler_body event_target now fetch client with
  | Except.ok trace => HandlerOutcome.success trace
  | Except.error e => HandlerOutcome.failureLogged e

/-- An `instance_entry`, when produced, always carries a non-empty tag value:
the truthiness test `if tag_value:` filters out the empty string. -/
theorem instance_entry_tag_value_ne_empty (tag_key : String) (i : Ec2Instance)
    (e : String × String × List (String × String))
    (h : instance_entry tag_key i = some e) : e.2.1 ≠ "" := by
  unfold instance_entry at h
  split at h
  · split at h
    · cases h
      assumption
    · cases h
  · cases h

/-- C3: for every Unix timestamp `t`, the JST hour of `t` is the UTC+9 local
hour `(t / 3600 + 9) % 24`, and `determine_action` returns "start" exactly
when that hour lies in [8, 18) and "stop" otherwise. -/
theorem determine_action_start_iff_working_hour (t : Nat) :
    (datetimeNowJST t).hour = (t / 3600 + 9) % 24 ∧
    determine_action (datetimeNowJST t) =
      (if 8 ≤ (t / 3600 + 9) % 24 ∧ (t / 3600 + 9) % 24 < 18
       then "start" else "stop") := by
  have hh : (datetimeNowJST t).hour = (t / 3600 + 9) % 24 := by
    show (t + 9 * 3600) / 3600 % 24 = (t / 3600 + 9) % 24
    rw [Nat.add_mul_div_right t 9 (by norm_num)]
  refine ⟨hh, ?_⟩
  unfold determine_action
  rw [hh]

/-- C6: on any fetch or parse failure, `get_japan_holidays` returns the empty
list instead of propagating the exception, and decision-making continues:
`is_japan_holiday` then reduces to the pure weekend check. -/
theorem get_japan_holidays_fail_open (e : String) (now : JstDateTime) :
    get_japan_holidays (FetchResult.err e) = [] ∧
    is_japan_holiday now (FetchResult.err e) =
      Except.ok (decide (5 ≤ now.weekday)) := by
  refine ⟨rfl, ?_⟩
  unfold is_japan_holiday
  by_cases h : 5 ≤ now.weekday <;>
    simp [get_japan_holidays, h, GE.ge]

/-- C5: on a Saturday or Sunday (`weekday() >= 5`), `is_japan_holiday`
returns `true` whenever the holiday list is empty — in particular when the
holiday fetch failed — so weekend forcing is independent of the fetch. -/
theorem is_japan_holiday_true_on_weekend (now : JstDateTime) (fetch : FetchResult)
    (hempty : get_japan_holidays fetch = []) (hwk : 5 ≤ now.weekday) :
    is_japan_holiday now fetch = Except.ok true := by
  unfold is_japan_holiday
  rw [hempty]
  simp [hwk, GE.ge]

/-- Witness for C5 at 2025-01-04 10:00 JST, a Saturday, with a failed holiday
fetch. -/
theorem is_japan_holiday_true_on_weekend_witness :
    get_japan_holidays (FetchResult.err "network error") = [] ∧
    5 ≤ (datetimeNowJST 1735952400).weekday ∧
    is_japan_holiday (datetimeNowJST 1735952400) (FetchResult.err "network error") =
      Except.ok true :=
  ⟨rfl, by decide,
    is_japan_holiday_true_on_weekend (datetimeNowJST 1735952400)
      (FetchResult.err "network error") rfl (by decide)⟩

/-- C1: the code contradicts the claim that `is_japan_holiday` returns `true`
on a holiday.  At 2025-01-01 09:00 JST (a Wednesday, and a listed holiday)
the membership test succeeds, and the log line then indexes the holiday LIST
with a string key, raising `TypeError` instead of returning `true`. -/
theorem is_japan_holiday_raises_on_weekday_holiday :
    (datetimeNowJST 1735689600).dateStr = "2025-01-01" ∧
    (datetimeNowJST 1735689600).weekday = 2 ∧
    is_japan_holiday (datetimeNowJST 1735689600)
        (FetchResult.ok [("2025-01-01", "NewYear")]) =
      Except.error "TypeError: list indices must be integers or slices, not str" :=
  ⟨by decide, by decide, rfl⟩

/-- C2: the per-instance policy table.  With default action "start" the tag
values "true", "start", "auto" (exact, case-sensitive) resolve to start and
everything else to no-op; with default action "stop" the tag values "true",
"stop", "auto" resolve to stop and everything else to no-op; in particular
an explicit "stop" tag during a "start" phase resolves to no-op. -/
theorem resolveInstanceAction_table (tv : String) :
    resolveInstanceAction tv "start" =
      (if tv = "true" ∨ tv = "start" ∨ tv = "auto"
       then ResolvedAction.start else ResolvedAction.noop) ∧
    resolveInstanceAction tv "stop" =
      (if tv = "true" ∨ tv = "stop" ∨ tv = "auto"
       then ResolvedAction.stop else ResolvedAction.noop) ∧
    resolveInstanceAction "stop" "start" = ResolvedAction.noop := by
  refine ⟨?_, ?_, by decide⟩ <;>
  · unfold resolveInstanceAction should_start should_stop
    by_cases h1 : tv = "true" <;> by_cases h2 : tv = "start" <;>
      by_cases h3 : tv = "auto" <;> by_cases h4 : tv = "stop" <;>
      simp_all [List.contains]

/-- C10: for every tag value and default action, `should_start` and
`should_stop` are never both true, so the reconciler's if/elif dispatch can
issue at most one of start or stop for an instance. -/
theorem should_start_should_stop_exclusive (tv da : String) :
    (should_start tv da && should_stop tv da) = false := by
  unfold should_start should_stop
  by_cases h : da = "start"
  · subst h
    simp
  · simp [h]

/-- C4: the rest-day override forces the default action to "stop" whenever
the rest-day predicate is true, for every incoming default, and passes the
time-derived default through unchanged when it is false. -/
theorem applyRestDayOverride_forces_stop (default_action : String) :
    applyRestDayOverride default_action true = "stop" ∧
    applyRestDayOverride default_action false = default_action :=
  ⟨rfl, rfl⟩

/-- C9: every entry produced by `get_ec2_instances_with_tag` has a non-empty
tag value, so an instance whose `autostartstop` tag value is the empty
string is excluded from the result — concretely, a fleet consisting of one
such instance yields the empty list. -/
theorem get_ec2_instances_excludes_empty_tag_value :
    (∀ (client : Ec2Client) (tag_key : String),
        ((get_ec2_instances_with_tag client tag_key).all
          (fun e => !(e.2.1 == ""))) = true) ∧
    get_ec2_instances_with_tag
        { describe_instances := Except.ok
            [{ instances := [{ instanceId := "i-0empty",
                               tags := [("autostartstop", "")] }] }]
          start_instances := fun _ => Except.ok "ok"
          stop_instances := fun _ => Except.ok "ok" } "autostartstop" = [] := by
  constructor
  · intro client tag_key
    rw [List.all_eq_true]
    intro e he
    unfold get_ec2_instances_with_tag at he
    rcases hd : client.describe_instances with msg | rs <;> rw [hd] at he
    · simp at he
    · simp only [List.mem_flatMap, List.mem_filterMap] at he
      obtain ⟨r, _, i, _, hi⟩ := he
      simpa using instance_entry_tag_value_ne_empty tag_key i e hi
  · rfl

/-- C7: when the instance at position `j` fails (its trace event is a caught
start or stop failure), every later position `k` is still processed: the
trace at `k` is exactly the handling of the `k`-th listed instance.  The
per-instance `try/except` makes this hold unconditionally. -/
theorem manage_processes_subsequent_after_failure (client : Ec2Client)
    (default_action : String) (j k : Nat) (e : Event) (hjk : j < k)
    (hj : (manage_ec2_instances default_action client)[j]? = some e)
    (hfail : (∃ ids err, e = Event.startFailed ids err) ∨
             (∃ ids err, e = Event.stopFailed ids err)) :
    (manage_ec2_instances default_action client)[k]? =
      ((get_ec2_instances_with_tag client "autostartstop")[k]?).map
        (process_instance client default_action) := by
  unfold manage_ec2_instances at hj ⊢
  by_cases hemp : (get_ec2_instances_with_tag client "autostartstop").isEmpty
  · rw [if_pos hemp] at hj
    simp at hj
  · rw [if_neg hemp]
    exact List.getElem?_map _ _ _

/-- A client whose start call fails for instance "i-aaa" only; the fleet has
"i-aaa" first and "i-bbb" second, both opted in with tag value "true". -/
def failingStartClient : Ec2Client :=
  { describe_instances := Except.ok
      [{ instances :=
          [{ instanceId := "i-aaa", tags := [("autostartstop", "true")] },
           { instanceId := "i-bbb", tags := [("autostartstop", "true")] }] }]
    start_instances := fun ids =>
      if ids = ["i-aaa"] then Except.error "boom" else Except.ok "ok"
    stop_instances := fun _ => Except.ok "ok" }

/-- Witness for C7: with `failingStartClient` the first instance's start call
fails, and the second instance is still processed. -/
theorem manage_processes_subsequent_after_failure_witness :
    (manage_ec2_instances "start" failingStartClient)[0]? =
      some (Event.startFailed ["i-aaa"] "boom") ∧
    (manage_ec2_instances "start" failingStartClient)[1]? =
      ((get_ec2_instances_with_tag failingStartClient "autostartstop")[1]?).map
        (process_instance failingStartClient "start") :=
  ⟨by decide,
    manage_processes_subsequent_after_failure failingStartClient "start" 0 1
      (Event.startFailed ["i-aaa"] "boom") (by decide) (by decide)
      (Or.inl ⟨["i-aaa"], "boom", rfl⟩)⟩

/-- C8: every exception that escapes the body of `lambda_handler` is caught
at the invocation boundary and reported as a logged failure; the handler
itself returns normally instead of re-raising. -/
theorem lambda_handler_catches_top_level (event_target : Option String)
    (now : JstDateTime) (fetch : FetchResult) (client : Ec2Client) (e : String)
    (hbody : lambda_handler_body event_target now fetch client = Except.error e) :
    lambda_handler event_target now fetch client = HandlerOutcome.failureLogged e := by
  unfold lambda_handler
  rw [hbody]

/-- A client with an empty fleet and always-succeeding calls. -/
def idleClient : Ec2Client :=
  { describe_instances := Except.ok []
    start_instances := fun _ => Except.ok "ok"
    stop_instances := fun _ => Except.ok "ok" }

/-- Witness for C8: the `TypeError` raised by `is_japan_holiday` on a listed
holiday reaches the top level and is caught and logged, not re-raised. -/
theorem lambda_handler_catches_top_level_witness :
    lambda_handler_body none (datetimeNowJST 1735689600)
        (FetchResult.ok [("2025-01-01", "NewYear")]) idleClient =
      Except.error "TypeError: list indices must be integers or slices, not str" ∧
    lambda_handler none (datetimeNowJST 1735689600)
        (FetchResult.ok [("2025-01-01", "NewYear")]) idleClient =
      HandlerOutcome.failureLogged
        "TypeError: list indices must be integers or slices, not str" :=
  ⟨rfl,
    lambda_handler_catches_top_level none (datetimeNowJST 1735689600)
      (FetchResult.ok [("2025-01-01", "NewYear")]) idleClient
      "TypeError: list indices must be integers or slices, not str" rfl⟩

end Ec2AutoStartStop
